import Mathlib

/-!
# arkade: tool lookup message and the mongodb / docker-registry install commands

A shallow embedding of

* `checkForTool` (package `cmd`), exercised by `cmd/install_test.go`;
* `MakeInstallMongoDB` (`cmd/apps/mongodb_app.go`);
* `MakeInstallRegistry` (`cmd/apps/registry_app.go`).

The install commands are sequential glue around external collaborators (Helm,
the cluster, the file system).  Each collaborator is a field of `Env`; a run
of `RunE` yields the list of effects performed, in order, together with the
returned error.
-/

namespace Arkade

/-! ## Tool lookup -/

/-- Modelled from the spec: the type `get.Tool` (package `pkg/get`) is not among
the sources; the spec names `Name` as the only attribute that takes part in
the lookup. -/
structure Tool where
  Name : String
  deriving DecidableEq, Repr

/-- Modelled from the spec: the case-insensitive equality used by
`checkForTool` is not among the sources.  Two strings are equal
case-insensitively when they agree character by character after case
folding.  The case-folding table `fold`, which sends every character to the
representative of its case variants, belongs to the language runtime and is a
parameter: nothing below depends on which characters it folds. -/
def equalFold (fold : Char → Char) (s t : String) : Bool :=
  s.toList.map fold == t.toList.map fold

/-- The "found" message template of `checkForTool`. -/
def foundMsg (appName : String) : String :=
  "no such app. " ++ appName ++ " is available as a tool, run \"arkade get "
    ++ appName ++ "\" to get it"

/-- The "not found" message template of `checkForTool`. -/
def notFoundMsg (appName : String) : String :=
  "no such app: " ++ appName ++ ", run \"arkade install --help\" for a list of apps"

/-- Modelled from the spec: the function `checkForTool` (package `cmd`) is not
among the sources, only its test `TestCheckForTool` is.  It scans `tools` in
sequence order, compares each `Name` with `appName` case-insensitively,
returns the "found" message at the first match and the "not found" message
when the scan ends without one. -/
def checkForTool (fold : Char → Char) (appName : String) : List Tool → String
  | [] => notFoundMsg appName
  | t :: ts =>
    if equalFold fold t.Name appName then foundMsg appName
    else checkForTool fold appName ts

/-! ## Errors, flags, collaborators and effects of the install commands -/

/-- A Go `error` value, identified with the message its `Error()` returns. -/
structure GoError where
  msg : String
  deriving DecidableEq, Repr

/-- Go `errors.New(text)`. -/
def errorsNew (text : String) : GoError := ⟨text⟩

/-- Go `fmt.Errorf(pre ++ "%s", err)`: a new error whose message is the text
before the verb followed by `err.Error()`. -/
def fmtErrorf (pre : String) (err : GoError) : GoError := ⟨pre ++ err.msg⟩

/-- The result of a Go call returning `(T, error)`. -/
inductive Res (α : Type) where
  | ok (val : α)
  | error (err : GoError)
  deriving DecidableEq, Repr

/-- The error part of a `(T, error)` result (`none` is `nil`). -/
def Res.err? {α : Type} : Res α → Option GoError
  | .ok _ => none
  | .error e => some e

/-- The value part of a `(T, error)` result whose error the caller discards
(`x, _ := ...`); `zero` is what the callee returns next to an error. -/
def Res.valD {α : Type} (r : Res α) (zero : α) : α :=
  match r with
  | .ok val => val
  | .error _ => zero

/-- Go `len(s)` of a string: its length in bytes. -/
def goLen (s : String) : Nat := s.utf8ByteSize

/-- A Go `map[string]string`, as an association list with unique keys. -/
abbrev Overrides := List (String × String)

/-- Go `m[k] = v`. -/
def mapSet (m : Overrides) (k v : String) : Overrides :=
  m.filter (fun p => p.1 != k) ++ [(k, v)]

/-- Go `strconv.FormatBool`. -/
def formatBool (b : Bool) : String := if b then "true" else "false"

/-- Package-level constants of package `apps` and `pkg` that the two commands
use and that are declared outside the files embedded here. -/
structure Consts where
  IntelArch : String
  OnlyIntelArch : String
  defaultVersion : String
  SupportMessageShort : String

/-- The values the cobra flag getters return for one invocation.  A getter
whose error the command discards (`x, _ := ...`) is the plain value; a getter
whose error the command checks somewhere is a `Res`. -/
structure Flags where
  kubeConfigPath : String
  wait : Bool
  nameSpace : String
  updateRepo : Bool
  username : String
  pass : String
  outputFile : String
  persistence : Res Bool
  customFlags : Res (List String)

/-- The external collaborators of the commands: what each call returns.
`config.MergeFlags` updates the map it is given in place and returns an error;
here it returns the updated map or the error.  `helm.TryDownloadHelm` also
returns a path, which both commands discard. -/
structure Env where
  setKubeconfig : String → Option GoError
  getNodeArchitecture : String
  initUserDir : Res String
  getClientArch : String × String
  pathJoin : String → String → String
  tempDir : String
  tryDownloadHelm : String → String → String → Option GoError
  addHelmRepo : String → String → Bool → Option GoError
  fetchChart : String → String → Option GoError
  mergeFlags : Overrides → List String → Res Overrides
  helm3Upgrade : String → String → String → String → Overrides → Bool → Option GoError
  passwordGenerate : Nat → Nat → Nat → Bool → Bool → Res String
  bcryptGenerateFromPassword : String → Nat → Res String
  writeFile : String → String → Nat → Option GoError

/-- One observable action of a command, with the arguments it was called with
and what it returned. -/
inductive Effect where
  | setKubeconfig (path : String) (err : Option GoError)
  | getNodeArchitecture (arch : String)
  | printf (format : String) (args : List String)
  | println (args : List String)
  | logPrintf (format : String) (args : List String)
  | initUserDir (res : Res String)
  | getClientArch (arch os : String)
  | setenv (key value : String)
  | tryDownloadHelm (userPath clientArch clientOS : String) (err : Option GoError)
  | addHelmRepo (name url : String) (update : Bool) (err : Option GoError)
  | fetchChart (chart version : String) (err : Option GoError)
  | getBool (flag : String) (res : Res Bool)
  | getStringArray (flag : String) (res : Res (List String))
  | mergeFlags (overrides : Overrides) (customFlags : List String) (res : Res Overrides)
  | helm3Upgrade (chart ns values version : String) (overrides : Overrides) (wait : Bool)
      (err : Option GoError)
  | passwordGenerate (res : Res String)
  | bcryptGenerateFromPassword (pass : String) (cost : Nat) (res : Res String)
  | writeFile (name data : String) (perm : Nat) (err : Option GoError)
  deriving DecidableEq, Repr

/-- What one invocation of a command's `RunE` did and returned (`none` is a
`nil` error). -/
structure Run where
  effects : List Effect
  err : Option GoError
  deriving DecidableEq, Repr

/-- The external steps the commands delegate to. -/
inductive Step where
  | download
  | repoAdd
  | fetchChart
  | getSet
  | merge
  | upgrade
  deriving DecidableEq, Repr

/-- The external step an effect is an invocation of, if any. -/
def Effect.step? : Effect → Option Step
  | .tryDownloadHelm .. => some .download
  | .addHelmRepo .. => some .repoAdd
  | .fetchChart .. => some .fetchChart
  | .getStringArray .. => some .getSet
  | .mergeFlags .. => some .merge
  | .helm3Upgrade .. => some .upgrade
  | _ => none

/-- The Helm steps of a run, in the order they were invoked: the external steps
other than the retrieval of the `--set` flag values. -/
def Run.steps (r : Run) : List Step :=
  (r.effects.filterMap Effect.step?).filter (fun s => s != Step.getSet)

/-- The error an effect returned, if it returned one. -/
def Effect.err? : Effect → Option GoError
  | .setKubeconfig _ err => err
  | .initUserDir res => res.err?
  | .tryDownloadHelm _ _ _ err => err
  | .addHelmRepo _ _ _ err => err
  | .fetchChart _ _ err => err
  | .getBool _ res => res.err?
  | .getStringArray _ res => res.err?
  | .mergeFlags _ _ res => res.err?
  | .helm3Upgrade _ _ _ _ _ _ err => err
  | .passwordGenerate res => res.err?
  | .bcryptGenerateFromPassword _ _ res => res.err?
  | .writeFile _ _ _ err => err
  | _ => none

/-! ## `mongodb_app.go` -/

/-- The constant `mongoDBPostInstallMsg`. -/
def mongoDBPostInstallMsg (c : Consts) : String :=
  "=======================================================================\n" ++
  "=                  MongoDB has been installed.                        =\n" ++
  "=======================================================================" ++
  "\n\n" ++ c.SupportMessageShort

/-- The `RunE` closure installed by `MakeInstallMongoDB`. -/
def MakeInstallMongoDB.RunE (c : Consts) (env : Env) (f : Flags) : Run :=
  let kubeConfigPath := f.kubeConfigPath
  let tr := [Effect.setKubeconfig kubeConfigPath (env.setKubeconfig kubeConfigPath)]
  match env.setKubeconfig kubeConfigPath with
  | some err => ⟨tr, some err⟩
  | none =>
  let wait := f.wait
  let nameSpace := f.nameSpace
  let arch := env.getNodeArchitecture
  let tr := tr ++ [.getNodeArchitecture arch, .printf "Node architecture: %q\n" [arch]]
  if arch ≠ c.IntelArch then ⟨tr, some (errorsNew c.OnlyIntelArch)⟩ else
  let tr := tr ++ [.initUserDir env.initUserDir]
  match env.initUserDir with
  | .error err => ⟨tr, some err⟩
  | .ok userPath =>
  let clientArch := env.getClientArch.1
  let clientOS := env.getClientArch.2
  let tr := tr ++ [.getClientArch clientArch clientOS,
    .printf "Client: %q, %q\n" [clientArch, clientOS],
    .logPrintf "User dir established as: %s\n" [userPath],
    .setenv "HELM_HOME" (env.pathJoin userPath ".helm")]
  let persistence := f.persistence.valD false
  let tr := tr ++ [.tryDownloadHelm userPath clientArch clientOS
    (env.tryDownloadHelm userPath clientArch clientOS)]
  match env.tryDownloadHelm userPath clientArch clientOS with
  | some err => ⟨tr, some err⟩
  | none =>
  let updateRepo := f.updateRepo
  let tr := tr ++ [.addHelmRepo "bitnami" "https://charts.bitnami.com/bitnami" updateRepo
    (env.addHelmRepo "bitnami" "https://charts.bitnami.com/bitnami" updateRepo)]
  match env.addHelmRepo "bitnami" "https://charts.bitnami.com/bitnami" updateRepo with
  | some err => ⟨tr, some (fmtErrorf "unable to add repo " err)⟩
  | none =>
  let tr := tr ++ [.fetchChart "bitnami/mongodb" c.defaultVersion
    (env.fetchChart "bitnami/mongodb" c.defaultVersion)]
  match env.fetchChart "bitnami/mongodb" c.defaultVersion with
  | some err => ⟨tr, some (fmtErrorf "unable fetch chart " err)⟩
  | none =>
  let overrides : Overrides := []
  let overrides := mapSet overrides "persistence.enabled" (formatBool persistence)
  let tr := tr ++ [.getStringArray "set" f.customFlags]
  match f.customFlags with
  | .error err => ⟨tr, some (fmtErrorf "error with --set usage: " err)⟩
  | .ok customFlags =>
  let tr := tr ++ [.mergeFlags overrides customFlags (env.mergeFlags overrides customFlags)]
  match env.mergeFlags overrides customFlags with
  | .error err => ⟨tr, some err⟩
  | .ok overrides =>
  let tr := tr ++ [.helm3Upgrade "bitnami/mongodb" nameSpace "values.yaml" c.defaultVersion
    overrides wait
    (env.helm3Upgrade "bitnami/mongodb" nameSpace "values.yaml" c.defaultVersion overrides wait)]
  match env.helm3Upgrade "bitnami/mongodb" nameSpace "values.yaml" c.defaultVersion
      overrides wait with
  | some err => ⟨tr, some (fmtErrorf "unable to mongodb chart with helm " err)⟩
  | none =>
  ⟨tr ++ [.println [mongoDBPostInstallMsg c]], none⟩

/-! ## `registry_app.go` -/

/-- The constant `RegistryInfoMsg`. -/
def RegistryInfoMsg : String :=
  "# Your docker-registry has been configured\n" ++
  "\n" ++
  "kubectl logs deploy/docker-registry\n" ++
  "\n" ++
  "export IP=\"192.168.0.11\" # Set to WiFI/ethernet adapter\n" ++
  "export PASSWORD=\"\" # See below\n" ++
  "kubectl port-forward svc/docker-registry --address 0.0.0.0 5000 &\n" ++
  "\n" ++
  "docker login $IP:5000 --username admin --password $PASSWORD\n" ++
  "docker tag alpine:3.11 $IP:5000/alpine:3.11\n" ++
  "docker push $IP:5000/alpine:3.11\n" ++
  "\n" ++
  "# This chart is community maintained.\n" ++
  "# Find out more at:\n" ++
  "# https://github.com/twuni/docker-registry.helm\n" ++
  "# https://github.com/distribution/distribution"

/-- The constant `registryInstallMsg`. -/
def registryInstallMsg (c : Consts) : String :=
  "=======================================================================\n" ++
  "= docker-registry has been installed.                                 =\n" ++
  "=======================================================================" ++
  "\n\n" ++ RegistryInfoMsg ++ "\n\n" ++ c.SupportMessageShort

/-- Go `bcrypt.DefaultCost`. -/
def bcryptDefaultCost : Nat := 10

/-- The `RunE` closure installed by `MakeInstallRegistry`. -/
def MakeInstallRegistry.RunE (c : Consts) (env : Env) (f : Flags) : Run :=
  let kubeConfigPath := f.kubeConfigPath
  let tr := [Effect.setKubeconfig kubeConfigPath (env.setKubeconfig kubeConfigPath)]
  match env.setKubeconfig kubeConfigPath with
  | some err => ⟨tr, some err⟩
  | none =>
  let wait := f.wait
  let updateRepo := f.updateRepo
  let tr := tr ++ [.initUserDir env.initUserDir]
  match env.initUserDir with
  | .error err => ⟨tr, some err⟩
  | .ok userPath =>
  let nameSpace := f.nameSpace
  if nameSpace ≠ "default" then
    ⟨tr, some (errorsNew "to override the \"default\", install via helm directly")⟩ else
  let outputFile := f.outputFile
  let clientArch := env.getClientArch.1
  let clientOS := env.getClientArch.2
  let tr := tr ++ [.getClientArch clientArch clientOS,
    .printf "Client: %s, %s\n" [clientArch, clientOS],
    .logPrintf "User dir established as: %s\n" [userPath],
    .setenv "HELM_HOME" (env.pathJoin userPath ".helm")]
  let tr := tr ++ [.tryDownloadHelm userPath clientArch clientOS
    (env.tryDownloadHelm userPath clientArch clientOS)]
  match env.tryDownloadHelm userPath clientArch clientOS with
  | some err => ⟨tr, some err⟩
  | none =>
  let username := f.username
  let pass := f.pass
  -- the block guarded by `len(pass) == 0`: generate a key and use it as `pass`
  let tr := if goLen pass = 0 then
      tr ++ [.passwordGenerate (env.passwordGenerate 20 10 0 false true)]
    else tr
  match (if goLen pass = 0 then env.passwordGenerate 20 10 0 false true else .ok pass) with
  | .error err => ⟨tr, some err⟩
  | .ok pass =>
  let tr := tr ++ [.bcryptGenerateFromPassword pass bcryptDefaultCost
    (env.bcryptGenerateFromPassword pass bcryptDefaultCost)]
  match env.bcryptGenerateFromPassword pass bcryptDefaultCost with
  | .error err => ⟨tr, some err⟩
  | .ok val =>
  let htPasswd := username ++ ":" ++ val ++ "\n"
  let tr := tr ++ [.addHelmRepo "twuni" "https://twuni.github.io/docker-registry.helm" updateRepo
    (env.addHelmRepo "twuni" "https://twuni.github.io/docker-registry.helm" updateRepo)]
  match env.addHelmRepo "twuni" "https://twuni.github.io/docker-registry.helm" updateRepo with
  | some err => ⟨tr, some err⟩
  | none =>
  let chartPath := env.pathJoin env.tempDir "charts"
  let tr := tr ++ [.fetchChart "twuni/docker-registry" c.defaultVersion
    (env.fetchChart "twuni/docker-registry" c.defaultVersion)]
  match env.fetchChart "twuni/docker-registry" c.defaultVersion with
  | some err => ⟨tr, some err⟩
  | none =>
  let tr := tr ++ [.getBool "persistence" f.persistence]
  match f.persistence with
  | .error err => ⟨tr, some err⟩
  | .ok persistence =>
  let overrides : Overrides := []
  let overrides := mapSet overrides "persistence.enabled" (formatBool persistence)
  let overrides := mapSet overrides "secrets.htpasswd" htPasswd
  let tr := tr ++ [.getStringArray "set" f.customFlags]
  match f.customFlags with
  | .error err => ⟨tr, some err⟩
  | .ok customFlags =>
  let tr := tr ++ [.mergeFlags overrides customFlags (env.mergeFlags overrides customFlags)]
  match env.mergeFlags overrides customFlags with
  | .error err => ⟨tr, some err⟩
  | .ok overrides =>
  let arch := env.getNodeArchitecture
  let tr := tr ++ [.getNodeArchitecture arch, .printf "Node architecture: %q\n" [arch],
    .println ["Chart path: ", chartPath]]
  let ns := "default"
  let tr := tr ++ [.helm3Upgrade "twuni/docker-registry" ns "values.yaml" c.defaultVersion
    overrides wait
    (env.helm3Upgrade "twuni/docker-registry" ns "values.yaml" c.defaultVersion overrides wait)]
  match env.helm3Upgrade "twuni/docker-registry" ns "values.yaml" c.defaultVersion
      overrides wait with
  | some err => ⟨tr, some err⟩
  | none =>
  let tr := tr ++ [.println [registryInstallMsg c]]
  if goLen outputFile > 0 then
    let tr := tr ++ [.writeFile outputFile pass 0o600 (env.writeFile outputFile pass 0o600)]
    match env.writeFile outputFile pass 0o600 with
    | some err => ⟨tr, some err⟩
    | none => ⟨tr ++ [.printf "See %s for credentials\n" [outputFile]], none⟩
  else
    ⟨tr ++ [.printf "Registry credentials: %s %s\nexport PASSWORD=%s\n" [username, pass, pass]],
      none⟩

/-! ## Sample inputs -/

/-- A sample case-folding table: the capital letters of ASCII, Latin-1, Greek
and Cyrillic fold to their small letters, every other character to itself. -/
def sampleFold (ch : Char) : Char :=
  let n := ch.toNat
  if (0x41 ≤ n ∧ n ≤ 0x5A) ∨ (0xC0 ≤ n ∧ n ≤ 0xDE ∧ n ≠ 0xD7)
      ∨ (0x391 ≤ n ∧ n ≤ 0x3A9 ∧ n ≠ 0x3A2) ∨ (0x410 ≤ n ∧ n ≤ 0x42F) then
    Char.ofNat (n + 32)
  else if 0x400 ≤ n ∧ n ≤ 0x40F then Char.ofNat (n + 80)
  else ch

/-- Sample constants for concrete runs. -/
def sampleConsts : Consts :=
  { IntelArch := "x86_64"
    OnlyIntelArch := "only Intel, i.e. PC architecture is supported for this app"
    defaultVersion := ""
    SupportMessageShort := "Find out more at: https://github.com/sponsors/alexellis" }

/-- Sample flag values: the declared defaults of the docker-registry command. -/
def sampleFlags : Flags :=
  { kubeConfigPath := ""
    wait := false
    nameSpace := "default"
    updateRepo := true
    username := "admin"
    pass := ""
    outputFile := ""
    persistence := .ok false
    customFlags := .ok [] }

/-- A sample environment in which every collaborator succeeds. -/
def sampleEnv : Env :=
  { setKubeconfig := fun _ => none
    getNodeArchitecture := "x86_64"
    initUserDir := .ok "/home/user/.arkade"
    getClientArch := ("x86_64", "Linux")
    pathJoin := fun a b => a ++ "/" ++ b
    tempDir := "/tmp"
    tryDownloadHelm := fun _ _ _ => none
    addHelmRepo := fun _ _ _ => none
    fetchChart := fun _ _ => none
    mergeFlags := fun overrides _ => .ok overrides
    helm3Upgrade := fun _ _ _ _ _ _ => none
    passwordGenerate := fun _ _ _ _ _ => .ok "g3n3r4t3dK3y"
    bcryptGenerateFromPassword := fun pass _ => .ok ("$2a$10$" ++ pass)
    writeFile := fun _ _ _ => none }

/-- The sample environment, except that `helm repo add` fails. -/
def repoAddFails : Env :=
  { sampleEnv with addHelmRepo := fun _ _ _ => some ⟨"boom"⟩ }

/-- The sample environment, except that fetching the chart fails. -/
def fetchChartFails : Env :=
  { sampleEnv with fetchChart := fun _ _ => some ⟨"boom"⟩ }

/-- Sample flag values for the mongodb command: it declares no `--update-repo`
flag, so that getter returns `false`. -/
def sampleMongoFlags : Flags :=
  { sampleFlags with updateRepo := false }

/-- Sample flags with a password supplied by the user and a file to write it
to. -/
def writeFileFlags : Flags :=
  { sampleFlags with pass := "s3cret", outputFile := "/tmp/registry-password" }

/-! ## Properties of the tool lookup -/

/-- The result of `checkForTool` only depends on whether some tool matches. -/
theorem checkForTool_eq_ite (fold : Char → Char) (appName : String) (tools : List Tool) :
    checkForTool fold appName tools =
      if tools.any (fun t => equalFold fold t.Name appName) then foundMsg appName
      else notFoundMsg appName := by
  induction tools with
  | nil => simp [checkForTool]
  | cons t ts ih =>
    by_cases h : equalFold fold t.Name appName = true
    · simp [checkForTool, h]
    · simp [checkForTool, h, ih]

/-- Case-insensitive comparison with the empty string succeeds only for the
empty string, whatever the case-folding table. -/
theorem equalFold_empty_iff (fold : Char → Char) (s : String) :
    equalFold fold s "" = true ↔ s = "" := by
  constructor
  · intro h
    have h1 : s.toList = [] := by simpa [equalFold] using h
    exact String.ext (by simpa using h1)
  · rintro rfl
    simp [equalFold]

/-- The two message templates differ at the empty name. -/
theorem foundMsg_empty_ne : foundMsg "" ≠ notFoundMsg "" := by decide

/-- C1: whenever some tool's name equals `appName` case-insensitively (under
any case-folding table), `checkForTool` returns the "found" message with
`appName` itself, as passed by the caller, in both places. -/
theorem checkForTool_found (fold : Char → Char) (appName : String) (tools : List Tool)
    (h : ∃ t ∈ tools, equalFold fold t.Name appName = true) :
    checkForTool fold appName tools =
      "no such app. " ++ appName ++ " is available as a tool, run \"arkade get "
        ++ appName ++ "\" to get it" := by
  have hany : tools.any (fun t => equalFold fold t.Name appName) = true := by
    simpa using h
  rw [checkForTool_eq_ite, hany]
  rfl

/-- The test case "Case-insensitive match", `KUBECTL` against `kubectl`, `helm`,
and a match that differs in the case of a letter outside ASCII. -/
theorem checkForTool_found_witness :
    checkForTool sampleFold "KUBECTL" [⟨"kubectl"⟩, ⟨"helm"⟩] =
        "no such app. " ++ "KUBECTL" ++ " is available as a tool, run \"arkade get "
          ++ "KUBECTL" ++ "\" to get it" ∧
      checkForTool sampleFold "étcd" [⟨"helm"⟩, ⟨"Étcd"⟩] =
        "no such app. " ++ "étcd" ++ " is available as a tool, run \"arkade get "
          ++ "étcd" ++ "\" to get it" :=
  ⟨checkForTool_found sampleFold "KUBECTL" [⟨"kubectl"⟩, ⟨"helm"⟩]
      ⟨⟨"kubectl"⟩, by decide, by decide⟩,
    checkForTool_found sampleFold "étcd" [⟨"helm"⟩, ⟨"Étcd"⟩]
      ⟨⟨"Étcd"⟩, by decide, by decide⟩⟩

/-- C2: whenever no tool's name equals `appName` case-insensitively (under any
case-folding table), `checkForTool` returns the "not found" message with
`appName` inserted as passed. -/
theorem checkForTool_notFound (fold : Char → Char) (appName : String) (tools : List Tool)
    (h : ∀ t ∈ tools, equalFold fold t.Name appName = false) :
    checkForTool fold appName tools =
      "no such app: " ++ appName ++ ", run \"arkade install --help\" for a list of apps" := by
  have hany : tools.any (fun t => equalFold fold t.Name appName) = false := by
    simpa [List.any_eq_false] using h
  rw [checkForTool_eq_ite, hany]
  rfl

/-- The test case "Tool does not exist": `randomtool` against `kubectl`, `helm`. -/
theorem checkForTool_notFound_witness :
    checkForTool sampleFold "randomtool" [⟨"kubectl"⟩, ⟨"helm"⟩] =
      "no such app: " ++ "randomtool" ++ ", run \"arkade install --help\" for a list of apps" :=
  checkForTool_notFound sampleFold "randomtool" [⟨"kubectl"⟩, ⟨"helm"⟩] (by decide)

/-- C3: the order of the tool list is irrelevant: two tool lists that are
permutations of each other give the same message for every `appName`. -/
theorem checkForTool_perm (fold : Char → Char) (appName : String) (tools tools' : List Tool)
    (h : tools.Perm tools') :
    checkForTool fold appName tools = checkForTool fold appName tools' := by
  have hany : tools.any (fun t => equalFold fold t.Name appName)
      = tools'.any (fun t => equalFold fold t.Name appName) := by
    rw [Bool.eq_iff_iff]
    simp only [List.any_eq_true]
    exact ⟨fun ⟨t, ht, hm⟩ => ⟨t, h.mem_iff.mp ht, hm⟩,
      fun ⟨t, ht, hm⟩ => ⟨t, h.mem_iff.mpr ht, hm⟩⟩
  rw [checkForTool_eq_ite, checkForTool_eq_ite, hany]

/-- Two orders of a list holding names that collide case-insensitively. -/
theorem checkForTool_perm_witness :
    checkForTool sampleFold "Helm" [⟨"helm"⟩, ⟨"kubectl"⟩, ⟨"HELM"⟩]
      = checkForTool sampleFold "Helm" [⟨"HELM"⟩, ⟨"helm"⟩, ⟨"kubectl"⟩] :=
  checkForTool_perm sampleFold "Helm" [⟨"helm"⟩, ⟨"kubectl"⟩, ⟨"HELM"⟩]
    [⟨"HELM"⟩, ⟨"helm"⟩, ⟨"kubectl"⟩] (by decide)

/-- C4: for the empty tool list `checkForTool` returns the "not found" message,
whatever `appName` is (the empty string included). -/
theorem checkForTool_nil (fold : Char → Char) (appName : String) :
    checkForTool fold appName [] =
      "no such app: " ++ appName ++ ", run \"arkade install --help\" for a list of apps" :=
  rfl

/-- C5: for the empty `appName` and a non-empty tool list, `checkForTool`
returns the "not found" message exactly when no tool has the empty name. -/
theorem checkForTool_empty_name (fold : Char → Char) (tools : List Tool) (_hne : tools ≠ []) :
    checkForTool fold "" tools
        = "no such app: , run \"arkade install --help\" for a list of apps"
      ↔ ∀ t ∈ tools, t.Name ≠ "" := by
  have hmsg : "no such app: , run \"arkade install --help\" for a list of apps"
      = notFoundMsg "" := by decide
  rw [checkForTool_eq_ite, hmsg]
  constructor
  · intro h t ht hname
    have hany : tools.any (fun t => equalFold fold t.Name "") = true :=
      List.any_eq_true.mpr ⟨t, ht, (equalFold_empty_iff fold _).mpr hname⟩
    rw [hany] at h
    exact foundMsg_empty_ne h
  · intro h
    have hany : tools.any (fun t => equalFold fold t.Name "") = false := by
      rw [List.any_eq_false]
      intro t ht hm
      exact h t ht ((equalFold_empty_iff fold _).mp hm)
    rw [hany]
    rfl

/-- The test case "Empty app name": the empty name against `kubectl`. -/
theorem checkForTool_empty_name_witness :
    checkForTool sampleFold "" [⟨"kubectl"⟩]
      = "no such app: , run \"arkade install --help\" for a list of apps" :=
  (checkForTool_empty_name sampleFold [⟨"kubectl"⟩] (by decide)).mpr (by decide)

/-! ## Properties of the install commands -/

/-- Go `len(s) == 0` holds exactly for the empty string. -/
theorem goLen_eq_zero_iff (s : String) : goLen s = 0 ↔ s = "" := by
  obtain ⟨l⟩ := s
  cases l with
  | nil => simp [goLen, String.utf8ByteSize, String.utf8ByteSize.go]
  | cons ch cs =>
    have hpos := ch.utf8Size_pos
    have hne : (String.mk (ch :: cs)) ≠ "" := by
      intro h
      have := congrArg String.data h
      simp at this
    simp only [goLen, String.utf8ByteSize, String.utf8ByteSize.go, hne, iff_false]
    omega

/-- C10: in the mongodb command, when kubeconfig setup succeeds and the node
architecture differs from `IntelArch`, `RunE` returns an error whose message is
`OnlyIntelArch` having only set the kubeconfig, read the node architecture and
printed it (no user directory, no `HELM_HOME`, no Helm step); and every Helm
upgrade the command issues happens on a node architecture equal to
`IntelArch`. -/
theorem mongodb_only_intel (c : Consts) (env : Env) (f : Flags) :
    (env.setKubeconfig f.kubeConfigPath = none → env.getNodeArchitecture ≠ c.IntelArch →
      (∃ e, (MakeInstallMongoDB.RunE c env f).err = some e ∧ e.msg = c.OnlyIntelArch) ∧
      (MakeInstallMongoDB.RunE c env f).effects =
        [.setKubeconfig f.kubeConfigPath none,
         .getNodeArchitecture env.getNodeArchitecture,
         .printf "Node architecture: %q\n" [env.getNodeArchitecture]]) ∧
    (∀ chart ns values version overrides wait err,
      Effect.helm3Upgrade chart ns values version overrides wait err
        ∈ (MakeInstallMongoDB.RunE c env f).effects →
      env.getNodeArchitecture = c.IntelArch) := by
  constructor
  · intro hk harch
    simp [MakeInstallMongoDB.RunE, hk, harch, errorsNew]
  · intro chart ns values version overrides wait err
    unfold MakeInstallMongoDB.RunE
    simp only []
    repeat' split
    all_goals simp_all

/-- Witness for C10: a run on an `arm64` node. -/
theorem mongodb_only_intel_witness :
    (∃ e, (MakeInstallMongoDB.RunE sampleConsts
        { sampleEnv with getNodeArchitecture := "arm64" } sampleMongoFlags).err = some e ∧
      e.msg = sampleConsts.OnlyIntelArch) ∧
    (MakeInstallMongoDB.RunE sampleConsts
        { sampleEnv with getNodeArchitecture := "arm64" } sampleMongoFlags).effects =
      [.setKubeconfig "" none, .getNodeArchitecture "arm64",
       .printf "Node architecture: %q\n" ["arm64"]] :=
  (mongodb_only_intel sampleConsts { sampleEnv with getNodeArchitecture := "arm64" }
    sampleMongoFlags).1 rfl (by decide)

/-- C9: in the docker-registry command, when kubeconfig setup and user
directory initialisation succeed and `--namespace` is not `default`, `RunE`
returns the error `to override the "default", install via helm directly`
having performed those two actions only (no Helm download, repo add, chart
fetch, upgrade, password generation or file write); and every Helm upgrade
the command issues targets the namespace `default`. -/
theorem registry_namespace_default (c : Consts) (env : Env) (f : Flags) :
    (∀ userPath, env.setKubeconfig f.kubeConfigPath = none →
      env.initUserDir = .ok userPath → f.nameSpace ≠ "default" →
      (MakeInstallRegistry.RunE c env f).err =
        some ⟨"to override the \"default\", install via helm directly"⟩ ∧
      (MakeInstallRegistry.RunE c env f).effects =
        [.setKubeconfig f.kubeConfigPath none, .initUserDir (.ok userPath)]) ∧
    (∀ chart ns values version overrides wait err,
      Effect.helm3Upgrade chart ns values version overrides wait err
        ∈ (MakeInstallRegistry.RunE c env f).effects →
      ns = "default") := by
  constructor
  · intro userPath hk hu hns
    simp [MakeInstallRegistry.RunE, hk, hu, hns, errorsNew]
  · intro chart ns values version overrides wait err
    unfold MakeInstallRegistry.RunE
    simp only []
    repeat' split
    all_goals simp_all

/-- Witness for C9: a run with `--namespace kube-system`. -/
theorem registry_namespace_default_witness :
    (MakeInstallRegistry.RunE sampleConsts sampleEnv
        { sampleFlags with nameSpace := "kube-system" }).err =
      some ⟨"to override the \"default\", install via helm directly"⟩ ∧
    (MakeInstallRegistry.RunE sampleConsts sampleEnv
        { sampleFlags with nameSpace := "kube-system" }).effects =
      [.setKubeconfig "" none, .initUserDir (.ok "/home/user/.arkade")] :=
  (registry_namespace_default sampleConsts sampleEnv
    { sampleFlags with nameSpace := "kube-system" }).1 "/home/user/.arkade" rfl rfl (by decide)

set_option maxHeartbeats 4000000 in
/-- C8: in both commands the Helm steps, read off the effects in order, form
an initial segment of download, repo add, chart fetch, merge, upgrade (so they
run in that order, each at most once, none skipped); an effect is followed by
a step only if it returned no error; a run that returns no error has invoked
all five steps, in that order, and none of its effects returned an error;
a run that invoked the download and in which no effect returned an error
returns no error; and the download is invoked as soon as the kubeconfig, the
architecture or namespace guard and the user directory allow it. -/
theorem install_steps_in_order (c : Consts) (env : Env) (f : Flags) :
    ((MakeInstallMongoDB.RunE c env f).steps
        <+: [Step.download, Step.repoAdd, Step.fetchChart, Step.merge, Step.upgrade] ∧
      (MakeInstallMongoDB.RunE c env f).effects.Pairwise
        (fun a b => b.step? ≠ none → a.err? = none) ∧
      ((MakeInstallMongoDB.RunE c env f).err = none →
        (MakeInstallMongoDB.RunE c env f).steps
          = [Step.download, Step.repoAdd, Step.fetchChart, Step.merge, Step.upgrade] ∧
        ∀ a ∈ (MakeInstallMongoDB.RunE c env f).effects, a.err? = none) ∧
      ((∀ a ∈ (MakeInstallMongoDB.RunE c env f).effects, a.err? = none) →
        Step.download ∈ (MakeInstallMongoDB.RunE c env f).steps →
        (MakeInstallMongoDB.RunE c env f).err = none) ∧
      (env.setKubeconfig f.kubeConfigPath = none →
        env.getNodeArchitecture = c.IntelArch → env.initUserDir.err? = none →
        Step.download ∈ (MakeInstallMongoDB.RunE c env f).steps)) ∧
    ((MakeInstallRegistry.RunE c env f).steps
        <+: [Step.download, Step.repoAdd, Step.fetchChart, Step.merge, Step.upgrade] ∧
      (MakeInstallRegistry.RunE c env f).effects.Pairwise
        (fun a b => b.step? ≠ none → a.err? = none) ∧
      ((MakeInstallRegistry.RunE c env f).err = none →
        (MakeInstallRegistry.RunE c env f).steps
          = [Step.download, Step.repoAdd, Step.fetchChart, Step.merge, Step.upgrade] ∧
        ∀ a ∈ (MakeInstallRegistry.RunE c env f).effects, a.err? = none) ∧
      ((∀ a ∈ (MakeInstallRegistry.RunE c env f).effects, a.err? = none) →
        Step.download ∈ (MakeInstallRegistry.RunE c env f).steps →
        (MakeInstallRegistry.RunE c env f).err = none) ∧
      (env.setKubeconfig f.kubeConfigPath = none →
        env.initUserDir.err? = none → f.nameSpace = "default" →
        Step.download ∈ (MakeInstallRegistry.RunE c env f).steps)) := by
  constructor
  · generalize hr : MakeInstallMongoDB.RunE c env f = r
    unfold MakeInstallMongoDB.RunE at hr
    simp only [] at hr
    repeat' split at hr
    all_goals
      subst hr
      simp [Run.steps, Effect.step?, Effect.err?, Res.err?, *]
  · generalize hr : MakeInstallRegistry.RunE c env f = r
    unfold MakeInstallRegistry.RunE at hr
    by_cases hlen : goLen f.pass = 0
    all_goals
      simp only [hlen, if_true, if_false] at hr
      repeat' split at hr
      all_goals
        subst hr
        simp [Run.steps, Effect.step?, Effect.err?, Res.err?, *]

/-- Witness for C8: runs in which every collaborator succeeds invoke the five
steps in order. -/
theorem install_steps_in_order_witness :
    (MakeInstallMongoDB.RunE sampleConsts sampleEnv sampleMongoFlags).steps
        = [Step.download, Step.repoAdd, Step.fetchChart, Step.merge, Step.upgrade] ∧
      (MakeInstallRegistry.RunE sampleConsts sampleEnv sampleFlags).steps
        = [Step.download, Step.repoAdd, Step.fetchChart, Step.merge, Step.upgrade] :=
  ⟨((install_steps_in_order sampleConsts sampleEnv sampleMongoFlags).1.2.2.1 (by decide)).1,
    ((install_steps_in_order sampleConsts sampleEnv sampleFlags).2.2.2.1 (by decide)).1⟩

/-- Counterexample for C6: in the mongodb command a failing `helm repo add`
is not returned as it is, the returned error carries a prefixed message. -/
theorem mongodb_repoAdd_error_wrapped :
    Effect.addHelmRepo "bitnami" "https://charts.bitnami.com/bitnami" false (some ⟨"boom"⟩)
      ∈ (MakeInstallMongoDB.RunE sampleConsts repoAddFails sampleMongoFlags).effects ∧
    (MakeInstallMongoDB.RunE sampleConsts repoAddFails sampleMongoFlags).err
      = some ⟨"unable to add repo boom"⟩ ∧
    (MakeInstallMongoDB.RunE sampleConsts repoAddFails sampleMongoFlags).err
      ≠ some ⟨"boom"⟩ := by
  decide

set_option maxHeartbeats 4000000 in
/-- C6, amended: in the docker-registry command an external step that fails
with `e` makes `RunE` return `e` itself; in the mongodb command a failing
download or merge is returned as it is, while a failing repo add, chart fetch,
`--set` retrieval or upgrade is returned as a new error whose message is a
fixed text followed by the message of `e`; in both commands no external step
is invoked twice. -/
theorem install_error_propagation (c : Consts) (env : Env) (f : Flags) :
    (∀ eff ∈ (MakeInstallRegistry.RunE c env f).effects, ∀ e,
      eff.step? ≠ none → eff.err? = some e →
      (MakeInstallRegistry.RunE c env f).err = some e) ∧
    (∀ eff ∈ (MakeInstallMongoDB.RunE c env f).effects, ∀ s e,
      eff.step? = some s → eff.err? = some e →
      (MakeInstallMongoDB.RunE c env f).err = some
        (match s with
          | .download => e
          | .repoAdd => ⟨"unable to add repo " ++ e.msg⟩
          | .fetchChart => ⟨"unable fetch chart " ++ e.msg⟩
          | .getSet => ⟨"error with --set usage: " ++ e.msg⟩
          | .merge => e
          | .upgrade => ⟨"unable to mongodb chart with helm " ++ e.msg⟩)) ∧
    ((MakeInstallRegistry.RunE c env f).effects.filterMap Effect.step?).Nodup ∧
    ((MakeInstallMongoDB.RunE c env f).effects.filterMap Effect.step?).Nodup := by
  have hreg : (∀ eff ∈ (MakeInstallRegistry.RunE c env f).effects, ∀ e,
      eff.step? ≠ none → eff.err? = some e →
      (MakeInstallRegistry.RunE c env f).err = some e) ∧
      ((MakeInstallRegistry.RunE c env f).effects.filterMap Effect.step?).Nodup := by
    generalize hr : MakeInstallRegistry.RunE c env f = r
    unfold MakeInstallRegistry.RunE at hr
    by_cases hlen : goLen f.pass = 0
    all_goals
      simp only [hlen, if_true, if_false] at hr
      repeat' split at hr
      all_goals
        subst hr
        simp [Effect.step?, Effect.err?, Res.err?, *]
  have hmongo : (∀ eff ∈ (MakeInstallMongoDB.RunE c env f).effects, ∀ s e,
      eff.step? = some s → eff.err? = some e →
      (MakeInstallMongoDB.RunE c env f).err = some
        (match s with
          | .download => e
          | .repoAdd => ⟨"unable to add repo " ++ e.msg⟩
          | .fetchChart => ⟨"unable fetch chart " ++ e.msg⟩
          | .getSet => ⟨"error with --set usage: " ++ e.msg⟩
          | .merge => e
          | .upgrade => ⟨"unable to mongodb chart with helm " ++ e.msg⟩)) ∧
      ((MakeInstallMongoDB.RunE c env f).effects.filterMap Effect.step?).Nodup := by
    generalize hr : MakeInstallMongoDB.RunE c env f = r
    unfold MakeInstallMongoDB.RunE at hr
    simp only [] at hr
    repeat' split at hr
    all_goals
      subst hr
      simp [Effect.step?, Effect.err?, Res.err?, fmtErrorf, *]
  exact ⟨hreg.1, hmongo.1, hreg.2, hmongo.2⟩

/-- Witness for C6: a docker-registry run in which fetching the chart fails. -/
theorem install_error_propagation_witness :
    (MakeInstallRegistry.RunE sampleConsts fetchChartFails sampleFlags).err = some ⟨"boom"⟩ :=
  (install_error_propagation sampleConsts fetchChartFails sampleFlags).1
    (.fetchChart "twuni/docker-registry" "" (some ⟨"boom"⟩)) (by decide) ⟨"boom"⟩
    (by decide) (by decide)

set_option maxHeartbeats 4000000 in
/-- C7: in the docker-registry command a password is generated only when
`--password` is blank; with a non-empty `--password` that value is the only
one hashed, it is hashed as soon as the Helm download has succeeded, and the
overrides handed to the merge are `persistence.enabled` and
`secrets.htpasswd = username ++ ":" ++ bcrypt(password) ++ "\\n"`.  A run that
returns no error has hashed the password (the supplied one, or else the
generated one), has handed these overrides to the merge, has upgraded with the
merged overrides, and has then either written the password as it is to the
`--write-file` path without printing the credentials line (non-empty path), or
printed it with the username and written nothing (empty path). -/
theorem registry_password (c : Consts) (env : Env) (f : Flags) :
    (∀ res, Effect.passwordGenerate res ∈ (MakeInstallRegistry.RunE c env f).effects →
      f.pass = "") ∧
    (f.pass ≠ "" →
      (∀ pw cost res, Effect.bcryptGenerateFromPassword pw cost res
          ∈ (MakeInstallRegistry.RunE c env f).effects → pw = f.pass) ∧
      (∀ overrides customFlags res, Effect.mergeFlags overrides customFlags res
          ∈ (MakeInstallRegistry.RunE c env f).effects →
        ∃ hash persistence,
          env.bcryptGenerateFromPassword f.pass bcryptDefaultCost = .ok hash ∧
          overrides = [("persistence.enabled", persistence),
            ("secrets.htpasswd", f.username ++ ":" ++ hash ++ "\n")]) ∧
      (∀ userPath clientArch clientOS,
        Effect.tryDownloadHelm userPath clientArch clientOS none
          ∈ (MakeInstallRegistry.RunE c env f).effects →
        Effect.bcryptGenerateFromPassword f.pass bcryptDefaultCost
            (env.bcryptGenerateFromPassword f.pass bcryptDefaultCost)
          ∈ (MakeInstallRegistry.RunE c env f).effects)) ∧
    ((MakeInstallRegistry.RunE c env f).err = none →
      ∃ pass hash persistence customFlags merged,
        (f.pass ≠ "" → pass = f.pass) ∧
        (f.pass = "" → env.passwordGenerate 20 10 0 false true = .ok pass ∧
          Effect.passwordGenerate (.ok pass) ∈ (MakeInstallRegistry.RunE c env f).effects) ∧
        env.bcryptGenerateFromPassword pass bcryptDefaultCost = .ok hash ∧
        Effect.bcryptGenerateFromPassword pass bcryptDefaultCost (.ok hash)
          ∈ (MakeInstallRegistry.RunE c env f).effects ∧
        Effect.mergeFlags
            [("persistence.enabled", persistence),
              ("secrets.htpasswd", f.username ++ ":" ++ hash ++ "\n")]
            customFlags (.ok merged)
          ∈ (MakeInstallRegistry.RunE c env f).effects ∧
        Effect.helm3Upgrade "twuni/docker-registry" "default" "values.yaml" c.defaultVersion
            merged f.wait none
          ∈ (MakeInstallRegistry.RunE c env f).effects ∧
        (f.outputFile ≠ "" →
          Effect.writeFile f.outputFile pass 0o600 none
            ∈ (MakeInstallRegistry.RunE c env f).effects ∧
          (∀ name data perm err, Effect.writeFile name data perm err
            ∈ (MakeInstallRegistry.RunE c env f).effects → name = f.outputFile ∧ data = pass) ∧
          Effect.printf "See %s for credentials\n" [f.outputFile]
            ∈ (MakeInstallRegistry.RunE c env f).effects ∧
          ∀ args, Effect.printf "Registry credentials: %s %s\nexport PASSWORD=%s\n" args
            ∉ (MakeInstallRegistry.RunE c env f).effects) ∧
        (f.outputFile = "" →
          Effect.printf "Registry credentials: %s %s\nexport PASSWORD=%s\n"
              [f.username, pass, pass]
            ∈ (MakeInstallRegistry.RunE c env f).effects ∧
          ∀ name data perm err, Effect.writeFile name data perm err
            ∉ (MakeInstallRegistry.RunE c env f).effects)) := by
  have hp := goLen_eq_zero_iff f.pass
  have ho := goLen_eq_zero_iff f.outputFile
  generalize hr : MakeInstallRegistry.RunE c env f = r
  unfold MakeInstallRegistry.RunE at hr
  by_cases hlen : goLen f.pass = 0 <;> by_cases hout : goLen f.outputFile = 0
  all_goals
    simp only [hlen, hout, if_true, if_false, true_iff, false_iff] at hp ho
    simp only [hlen, hout, if_true, if_false, gt_iff_lt, Nat.lt_irrefl,
      Nat.pos_iff_ne_zero, ne_eq, not_true_eq_false, not_false_eq_true] at hr
    repeat' split at hr
    all_goals
      subst hr
      simp_all [mapSet, and_assoc]

/-- Witness for C7: a successful run with `--password s3cret` and
`--write-file /tmp/registry-password`. -/
theorem registry_password_witness :
    ∃ pass hash persistence customFlags merged,
      ("s3cret" ≠ "" → pass = "s3cret") ∧
      ("s3cret" = "" → sampleEnv.passwordGenerate 20 10 0 false true = .ok pass ∧
        Effect.passwordGenerate (.ok pass) ∈ 
          (MakeInstallRegistry.RunE sampleConsts sampleEnv writeFileFlags).effects) ∧
      sampleEnv.bcryptGenerateFromPassword pass bcryptDefaultCost = .ok hash ∧
      Effect.bcryptGenerateFromPassword pass bcryptDefaultCost (.ok hash) ∈ 
          (MakeInstallRegistry.RunE sampleConsts sampleEnv writeFileFlags).effects ∧
      Effect.mergeFlags
          [("persistence.enabled", persistence),
            ("secrets.htpasswd", "admin" ++ ":" ++ hash ++ "\n")]
          customFlags (.ok merged) ∈ 
          (MakeInstallRegistry.RunE sampleConsts sampleEnv writeFileFlags).effects ∧
      Effect.helm3Upgrade "twuni/docker-registry" "default" "values.yaml" "" merged false none
        ∈ 
          (MakeInstallRegistry.RunE sampleConsts sampleEnv writeFileFlags).effects ∧
      ("/tmp/registry-password" ≠ "" →
        Effect.writeFile "/tmp/registry-password" pass 0o600 none ∈ 
          (MakeInstallRegistry.RunE sampleConsts sampleEnv writeFileFlags).effects ∧
        (∀ name data perm err, Effect.writeFile name data perm err ∈ 
          (MakeInstallRegistry.RunE sampleConsts sampleEnv writeFileFlags).effects →
          name = "/tmp/registry-password" ∧ data = pass) ∧
        Effect.printf "See %s for credentials\n" ["/tmp/registry-password"] ∈ 
          (MakeInstallRegistry.RunE sampleConsts sampleEnv writeFileFlags).effects ∧
        ∀ args, Effect.printf "Registry credentials: %s %s\nexport PASSWORD=%s\n" args
          ∉ 
          (MakeInstallRegistry.RunE sampleConsts sampleEnv writeFileFlags).effects) ∧
      ("/tmp/registry-password" = "" →
        Effect.printf "Registry credentials: %s %s\nexport PASSWORD=%s\n"
            ["admin", pass, pass] ∈ 
          (MakeInstallRegistry.RunE sampleConsts sampleEnv writeFileFlags).effects ∧
        ∀ name data perm err, Effect.writeFile name data perm err ∉ 
          (MakeInstallRegistry.RunE sampleConsts sampleEnv writeFileFlags).effects) :=
  (registry_password sampleConsts sampleEnv writeFileFlags).2.2 (by decide)

end Arkade
